import Mathlib

/-!
Verification of the process-lifecycle supervisor of `streamware`
(desktop/rust/voice-shell-app/src-tauri/src/server.rs and commands.rs).

The supervisor's process-wide statics (`SERVER_PROCESS`, `SERVER_PORT`,
`SERVER_LANGUAGE`) become an explicit state record `SupState`; the outside
world (interpreter probing, spawning, liveness polling, TCP readiness
probing, environment variables) becomes an explicit oracle record `Env`.
Operations are state transformers; `start_server` and `stop_server` also
emit an event trace recording the order of their observable effects, which
is needed for the temporal claims.
-/

namespace Streamware

/-- Which output stream of the child a relay listener drains. -/
inductive StreamTag
  | stdout
  | stderr
deriving DecidableEq, Repr

/-- Result of the non-blocking liveness poll (`Child::try_wait` in the
source): the process has exited, is still running, or the poll errored. -/
inductive PollStatus
  | exited
  | running
  | pollError
deriving DecidableEq, Repr

/-- Supervised process handle (`std::process::Child`): the pid plus whether
the piped stdout/stderr stream handles are still present (they are consumed
at most once, by `start_log_forwarder`). -/
structure Child where
  pid : Nat
  stdoutOpen : Bool
  stderrOpen : Bool
deriving DecidableEq, Repr

/-- The supervisor's global mutable state: the singleton process slot
(`SERVER_PROCESS`), the configured port (`SERVER_PORT`, a u16 value), and
the configured language tag (`SERVER_LANGUAGE`). -/
structure SupState where
  process : Option Child
  port : Nat
  language : String
deriving DecidableEq, Repr

/-- Oracle for the outside world: whether invoking `candidate --version`
succeeds, the `VIRTUAL_ENV` variable, file existence, the outcome of
spawning a command (error message or fresh pid), the liveness poll result
per pid, and whether the TCP readiness probe on a given port connects at a
given attempt number. -/
structure Env where
  versionOk : String → Bool
  virtualEnv : Option String
  pathExists : String → Bool
  spawnResult : String → List String → Except String Nat
  pollStatus : Nat → PollStatus
  readyAt : Nat → Nat → Bool

/-- Observable effects of a supervisor operation, in the order the source
performs them. -/
inductive Event
  | configWrite (port : Nat) (language : String)
  | spawned (pid : Nat)
  | storeHandle (pid : Nat)
  | relayStarted (tag : StreamTag)
  | pollAttempt (attempt : Nat) (success : Bool)
  | warnNotReady
  | terminate (pid : Nat)
  | waited (pid : Nat)
deriving DecidableEq, Repr

/-- The HTTP/readiness port, `port + 1` computed on a u16 with no guard
(server.rs line 53, commands.rs line 17): modular u16 semantics. -/
def http_port (port : Nat) : Nat :=
  (port + 1) % 65536

/-- Liveness query (`is_server_running`, server.rs lines 107-118): empty
slot means false; otherwise a non-blocking `try_wait` poll — exited means
false, still-running means true, poll error means false. The function
returns the state unchanged: it never clears the slot itself. -/
def is_server_running (env : Env) (s : SupState) : Bool × SupState :=
  (match s.process with
   | some child =>
     match env.pollStatus child.pid with
     | PollStatus.exited => false
     | PollStatus.running => true
     | PollStatus.pollError => false
   | none => false, s)

/-- The fixed candidate list probed by `find_python` (server.rs 138-143). -/
def candidates : List String :=
  ["python3", "python", "/usr/bin/python3", "/usr/local/bin/python3"]

/-- Interpreter resolution (`find_python`, server.rs lines 136-164): the
first candidate whose `--version` invocation succeeds; failing that, the
`VIRTUAL_ENV`-derived path `$VIRTUAL_ENV/bin/python` if the variable is set
and the path exists; otherwise none. -/
def find_python (env : Env) : Option String :=
  match candidates.find? env.versionOk with
  | some c => some c
  | none =>
    match env.virtualEnv with
    | some venv =>
      let venv_python := venv ++ "/bin/python"
      if env.pathExists venv_python then some venv_python else none
    | none => none

/-- Relay-listener startup (`start_log_forwarder`, server.rs lines
167-189): for the handle in the slot, take each still-present output
stream and start a background listener draining it; the stream handles are
consumed (set to closed) in the stored child. -/
def start_log_forwarder (s : SupState) : SupState × List Event :=
  match s.process with
  | some child =>
    let evs :=
      (if child.stdoutOpen then [Event.relayStarted StreamTag.stdout] else [])
        ++ (if child.stderrOpen then [Event.relayStarted StreamTag.stderr] else [])
    ({ s with process := some { child with stdoutOpen := false, stderrOpen := false } }, evs)
  | none => (s, [])

/-- Readiness probe (`check_server_ready`, server.rs lines 69-78): a
500ms-timeout TCP connect to 127.0.0.1 on the given port; whether it
connects is supplied by the oracle, indexed by the attempt number. -/
def check_server_ready (env : Env) (port : Nat) (attempt : Nat) : Bool :=
  env.readyAt port attempt

/-- Readiness poll loop (server.rs lines 55-64): up to `fuel` attempts
starting at attempt number `attempt`, returning at the first successful
probe; exhaustion yields a warning event, never an error. The Bool records
whether readiness was confirmed. -/
def readinessLoop (env : Env) (port : Nat) : Nat → Nat → Bool × List Event
  | _, 0 => (false, [Event.warnNotReady])
  | attempt, fuel + 1 =>
    if check_server_ready env port attempt then
      (true, [Event.pollAttempt attempt true])
    else
      ((readinessLoop env port (attempt + 1) fuel).1,
        Event.pollAttempt attempt false :: (readinessLoop env port (attempt + 1) fuel).2)

/-- Argument vector passed to the spawned interpreter (server.rs 33-37). -/
def serverArgs (port : Nat) (language : String) : List String :=
  ["-m", "streamware.voice_shell_server", "--port", toString port, "--lang", language]

/-- Start operation (`start_server`, server.rs lines 16-66): liveness
check; config overwrite; interpreter resolution; spawn with both streams
piped; store handle in the slot; start the relay listeners; bounded
readiness poll (30 attempts); success regardless of readiness outcome. -/
def start_server (env : Env) (port : Nat) (language : String) (s : SupState) :
    Except String Unit × SupState × List Event :=
  if (is_server_running env s).1 then
    (Except.error "Server is already running", s, [])
  else
    let s1 : SupState := { s with port := port, language := language }
    let evs0 := [Event.configWrite port language]
    match find_python env with
    | none => (Except.error "Python not found", s1, evs0)
    | some python =>
      match env.spawnResult python (serverArgs port language) with
      | Except.error e =>
        (Except.error ("Failed to spawn Python process: " ++ e), s1, evs0)
      | Except.ok pid =>
        let s2 : SupState :=
          { s1 with process := some { pid := pid, stdoutOpen := true, stderrOpen := true } }
        let relayed := start_log_forwarder s2
        let poll := readinessLoop env (http_port port) 1 30
        (Except.ok (), relayed.1,
          evs0 ++ [Event.spawned pid, Event.storeHandle pid] ++ relayed.2 ++ poll.2)

/-- Stop operation (`stop_server`, server.rs lines 81-104): if the slot is
empty this is a no-op; otherwise the handle is taken out of the slot, a
termination request is issued, and the operation blocks waiting for exit.
Wait errors are only logged; the operation never fails outward. -/
def stop_server (s : SupState) : SupState × List Event :=
  match s.process with
  | some child =>
    ({ s with process := none }, [Event.terminate child.pid, Event.waited child.pid])
  | none => (s, [])

/-- Language getter (`get_language`, server.rs lines 126-128). -/
def get_language (s : SupState) : String :=
  s.language

/-- Language setter (`set_language`, server.rs lines 131-133). -/
def set_language (language : String) (s : SupState) : SupState :=
  { s with language := language }

/-- Port getter (`get_server_port`, server.rs lines 121-123). -/
def get_server_port (s : SupState) : Nat :=
  s.port

/-- Status record returned by the `get_server_status` command
(commands.rs lines 68-73). -/
structure ServerStatus where
  running : Bool
  port : Nat
  url : String
deriving DecidableEq, Repr

/-- Status command (`get_server_status`, commands.rs lines 10-19): reports
liveness, the configured port, and the URL built from `port + 1`. -/
def get_server_status (env : Env) (s : SupState) : ServerStatus :=
  { running := (is_server_running env s).1
    port := s.port
    url := "http://127.0.0.1:" ++ toString (http_port s.port) }

/-- Interpreter resolution as the spec words it (refinement reference for
the resolution-order claim): probe the four well-known candidates in fixed
priority order, each confirmed by its version subcommand; then the
virtual-environment-derived path if the variable is set and the path
exists; otherwise fail. -/
def find_python_spec (env : Env) : Option String :=
  if env.versionOk "python3" then some "python3"
  else if env.versionOk "python" then some "python"
  else if env.versionOk "/usr/bin/python3" then some "/usr/bin/python3"
  else if env.versionOk "/usr/local/bin/python3" then some "/usr/local/bin/python3"
  else
    match env.virtualEnv with
    | some v =>
      if env.pathExists (v ++ "/bin/python") then some (v ++ "/bin/python") else none
    | none => none

/-- Concrete environment for evaluation: `python3` resolves, spawning
yields pid 42, every spawned process polls as still running, the readiness
probe always connects. -/
def envRun : Env :=
  { versionOk := fun c => c == "python3"
    virtualEnv := none
    pathExists := fun _ => false
    spawnResult := fun _ _ => Except.ok 42
    pollStatus := fun _ => PollStatus.running
    readyAt := fun _ _ => true }

/-- Concrete environment in which every liveness poll reports exited. -/
def envDead : Env :=
  { envRun with pollStatus := fun _ => PollStatus.exited }

/-- Concrete environment in which no interpreter resolves. -/
def envNoPy : Env :=
  { envRun with versionOk := fun _ => false }

/-- Concrete environment in which the readiness probe never connects. -/
def envNoReady : Env :=
  { envRun with readyAt := fun _ _ => false }

/-- Initial state: empty slot, port 8765, language "en". -/
def s0 : SupState :=
  { process := none, port := 8765, language := "en" }

/-- State with a handle (pid 42, streams already drained) in the slot. -/
def sLive : SupState :=
  { process := some { pid := 42, stdoutOpen := false, stderrOpen := false }
    port := 8765, language := "en" }

/-- The spawn-failure message, whatever the detail, is longer than any
string of fewer than 32 characters, hence distinct from the other error
messages. -/
theorem spawn_err_ne (e t : String) (ht : t.length < 32) :
    ("Failed to spawn Python process: " ++ e) ≠ t := by
  intro h
  have h2 := congrArg String.length h
  rw [String.length_append] at h2
  have h4 : ("Failed to spawn Python process: " : String).length = 32 := by decide
  omega

/-- Exhaustion characterization of the readiness loop: the warning event
appears in its trace exactly when every attempt in the window fails. -/
theorem warn_mem_readinessLoop (env : Env) (port : Nat) :
    ∀ fuel attempt, (Event.warnNotReady ∈ (readinessLoop env port attempt fuel).2 ↔
      ∀ i, attempt ≤ i → i < attempt + fuel → check_server_ready env port i = false)
  | 0, attempt => by
    constructor
    · intro _ i h1 h2
      omega
    · intro _
      simp [readinessLoop]
  | fuel + 1, attempt => by
    rw [readinessLoop]
    cases hc : check_server_ready env port attempt with
    | true =>
      simp only [hc, if_true]
      constructor
      · intro hmem
        exact absurd hmem (by simp)
      · intro hall
        exact absurd (hall attempt (Nat.le_refl _) (by omega)) (by simp [hc])
    | false =>
      simp only [hc, Bool.false_eq_true, if_false, List.mem_cons]
      rw [warn_mem_readinessLoop env port fuel (attempt + 1)]
      constructor
      · intro hmem i h1 h2
        rcases hmem with heq | hrest
        · exact absurd heq (by simp)
        · rcases Nat.eq_or_lt_of_le h1 with heq | hlt
          · rw [← heq]
            exact hc
          · exact hrest i hlt (by omega)
      · intro hall
        exact Or.inr (fun i h1 h2 => hall i (by omega) (by omega))

/-- Shape of a successful start: given a passed liveness check, a resolved
interpreter and a successful spawn, `start_server` succeeds, the final
state holds the new handle (streams drained) and the new configuration,
and the trace is config write, spawn, handle store, the two relay starts,
then the readiness poll events, in that order. -/
theorem start_server_spawn_shape (env : Env) (p : Nat) (l : String) (s : SupState)
    (hrun : (is_server_running env s).1 = false)
    (py : String) (hpy : find_python env = some py)
    (pid : Nat) (hsp : env.spawnResult py (serverArgs p l) = Except.ok pid) :
    start_server env p l s =
      (Except.ok (),
       { process := some { pid := pid, stdoutOpen := false, stderrOpen := false },
         port := p, language := l },
       Event.configWrite p l :: Event.spawned pid :: Event.storeHandle pid ::
         Event.relayStarted StreamTag.stdout :: Event.relayStarted StreamTag.stderr ::
         (readinessLoop env (http_port p) 1 30).2) := by
  simp [start_server, hrun, hpy, hsp, start_log_forwarder]

/-- C1: when the liveness predicate reports the process as running,
`start_server` returns the AlreadyRunning error and leaves the whole state
(handle and configuration) unchanged; a stale handle whose liveness poll
reports exited never triggers this error. -/
theorem start_already_running_guard (env : Env) (p : Nat) (l : String) (s : SupState) :
    ((is_server_running env s).1 = true →
      start_server env p l s = (Except.error "Server is already running", s, []))
    ∧ (∀ c, s.process = some c → env.pollStatus c.pid = PollStatus.exited →
        (start_server env p l s).1 ≠ Except.error "Server is already running") := by
  constructor
  · intro h
    simp [start_server, h]
  · intro c hc hex
    have hrun : (is_server_running env s).1 = false := by
      simp [is_server_running, hc, hex]
    cases hpy : find_python env with
    | none =>
      simp [start_server, hrun, hpy]
    | some py =>
      cases hsp : env.spawnResult py (serverArgs p l) with
      | error e =>
        simp [start_server, hrun, hpy, hsp]
        exact spawn_err_ne e _ (by decide)
      | ok pid =>
        simp [start_server, hrun, hpy, hsp]

/-- C1 witness: with a live pid-42 handle in the slot, `start 9000 "fr"`
fails with AlreadyRunning and changes nothing. -/
theorem start_already_running_guard_instance :
    start_server envRun 9000 "fr" sLive =
      (Except.error "Server is already running", sLive, []) :=
  (start_already_running_guard envRun 9000 "fr" sLive).1 (by decide)

/-- C2 counterexample: on the AlreadyRunning failure path the
configuration is NOT overwritten — after `start 9000 "fr"` against a live
handle, the port is still 8765 and the language still "en" — refuting the
claim that the overwrite happens on every pre-spawn failure path
including AlreadyRunning. -/
theorem config_not_overwritten_on_already_running :
    (start_server envRun 9000 "fr" sLive).2.1.port = 8765
    ∧ (start_server envRun 9000 "fr" sLive).2.1.language = "en"
    ∧ (8765 : Nat) ≠ 9000 ∧ ("en" : String) ≠ "fr" :=
  ⟨rfl, rfl, by decide, by decide⟩

/-- C2 (amended): the configuration is overwritten to the given port and
language on every path that passes the AlreadyRunning liveness check —
InterpreterNotFound, SpawnFailed and success alike — but is left untouched
when `start_server` fails with AlreadyRunning. -/
theorem config_overwritten_past_liveness_check (env : Env) (p : Nat) (l : String)
    (s : SupState) :
    ((is_server_running env s).1 = false →
      (start_server env p l s).2.1.port = p ∧ (start_server env p l s).2.1.language = l)
    ∧ ((is_server_running env s).1 = true → (start_server env p l s).2.1 = s) := by
  constructor
  · intro hrun
    cases hpy : find_python env with
    | none => simp [start_server, hrun, hpy]
    | some py =>
      cases hsp : env.spawnResult py (serverArgs p l) with
      | error e => simp [start_server, hrun, hpy, hsp]
      | ok pid => simp [start_server, hrun, hpy, hsp, start_log_forwarder]
  · intro hrun
    simp [start_server, hrun]

/-- C2 witness: with an empty slot and no interpreter, `start 9000 "fr"`
still rewrites the configuration to port 9000 and language "fr". -/
theorem config_overwritten_past_liveness_check_instance :
    (start_server envNoPy 9000 "fr" s0).2.1.port = 9000
    ∧ (start_server envNoPy 9000 "fr" s0).2.1.language = "fr" :=
  (config_overwritten_past_liveness_check envNoPy 9000 "fr" s0).1 (by decide)

/-- C4: with an empty slot and no resolvable interpreter, `start_server`
fails with InterpreterNotFound, the slot stays empty, and `is_running`
remains false afterwards. -/
theorem interpreter_not_found_leaves_slot_empty (env : Env) (p : Nat) (l : String)
    (s : SupState) (hempty : s.process = none) (hpy : find_python env = none) :
    (start_server env p l s).1 = Except.error "Python not found"
    ∧ (start_server env p l s).2.1.process = none
    ∧ (is_server_running env (start_server env p l s).2.1).1 = false := by
  have hrun : (is_server_running env s).1 = false := by
    simp [is_server_running, hempty]
  refine ⟨?_, ?_, ?_⟩ <;> simp [start_server, hrun, hpy, is_server_running, hempty]

/-- C4 witness: concrete no-interpreter start from the initial state. -/
theorem interpreter_not_found_leaves_slot_empty_instance :
    (start_server envNoPy 9000 "fr" s0).1 = Except.error "Python not found"
    ∧ (start_server envNoPy 9000 "fr" s0).2.1.process = none
    ∧ (is_server_running envNoPy (start_server envNoPy 9000 "fr" s0).2.1).1 = false :=
  interpreter_not_found_leaves_slot_empty envNoPy 9000 "fr" s0 rfl (by decide)

/-- C5: `stop_server` never fails outward (it returns no error by type),
is a no-op on an empty slot, and always leaves the slot empty, so
`is_running` is false afterwards. -/
theorem stop_server_total (env : Env) (s : SupState) :
    (stop_server s).1.process = none
    ∧ (s.process = none → stop_server s = (s, []))
    ∧ (is_server_running env (stop_server s).1).1 = false := by
  refine ⟨?_, ?_, ?_⟩
  · cases hp : s.process <;> simp [stop_server, hp]
  · intro hp
    simp [stop_server, hp]
  · cases hp : s.process <;> simp [stop_server, hp, is_server_running]

/-- C5 witness: stopping with an empty slot is exactly a no-op. -/
theorem stop_server_total_instance : stop_server s0 = (s0, []) :=
  (stop_server_total envRun s0).2.1 rfl

/-- C8: `set_language` then `get_language` returns exactly the set string,
and the setter touches neither the process slot nor the port nor the
liveness observation. -/
theorem set_get_language_roundtrip (env : Env) (l : String) (s : SupState) :
    get_language (set_language l s) = l
    ∧ (set_language l s).process = s.process
    ∧ (set_language l s).port = s.port
    ∧ (is_server_running env (set_language l s)).1 = (is_server_running env s).1 := by
  simp [get_language, set_language, is_server_running]

/-- C9: `is_server_running` returns false on an empty slot; with a handle
present it is true exactly when the poll reports still-running (hence
false on exited and on poll error); and it returns the state unchanged —
it never clears the slot itself. -/
theorem is_server_running_cases (env : Env) (s : SupState) :
    (is_server_running env s).2 = s
    ∧ (s.process = none → (is_server_running env s).1 = false)
    ∧ (∀ c, s.process = some c →
        ((is_server_running env s).1 = true ↔ env.pollStatus c.pid = PollStatus.running)) := by
  refine ⟨rfl, fun hp => by simp [is_server_running, hp], fun c hc => ?_⟩
  cases hst : env.pollStatus c.pid <;> simp [is_server_running, hc, hst]

/-- C9 witness: stale pid-42 handle polls as exited, so liveness is false
and the handle is still in the slot. -/
theorem is_server_running_cases_instance :
    (is_server_running envDead sLive).2 = sLive
    ∧ ((is_server_running envRun sLive).1 = true) :=
  ⟨(is_server_running_cases envDead sLive).1,
   ((is_server_running_cases envRun sLive).2.2 _ rfl).2 rfl⟩

/-- C10: the readiness port is `port + 1` on a u16 with no guard: exact
for every port up to 65534, but at the admissible port 65535 the addition
leaves the u16 range (65535 + 1 = 65536) and wraps to 0 under modular
semantics, as the status URL then shows. -/
theorem http_port_overflow :
    (∀ p, p ≤ 65534 → http_port p = p + 1)
    ∧ http_port 65535 = 0
    ∧ 65536 ≤ 65535 + 1
    ∧ (∀ env s, s.port = 65535 → (get_server_status env s).url = "http://127.0.0.1:0") := by
  refine ⟨fun p hp => ?_, by norm_num [http_port], by norm_num, fun env s hs => ?_⟩
  · unfold http_port
    omega
  · show "http://127.0.0.1:" ++ toString (http_port s.port) = _
    rw [hs]
    rfl

/-- C10 witness: at the default port 8765 the computation is exact. -/
theorem http_port_overflow_instance : (8765 : Nat) ≤ 65534 ∧ http_port 8765 = 8766 :=
  ⟨by norm_num, http_port_overflow.1 8765 (by norm_num)⟩

/-- C3: once the spawn has succeeded, `start_server` returns success
whatever the readiness poll observes; exhaustion of all 30 attempts
surfaces only as the warning event, never as an error; and a successful
probe inside the window means the loop stopped there and no warning is
emitted. -/
theorem start_success_despite_readiness (env : Env) (p : Nat) (l : String) (s : SupState)
    (hrun : (is_server_running env s).1 = false)
    (py : String) (hpy : find_python env = some py)
    (pid : Nat) (hsp : env.spawnResult py (serverArgs p l) = Except.ok pid) :
    (start_server env p l s).1 = Except.ok ()
    ∧ ((∀ i, check_server_ready env (http_port p) i = false) →
        Event.warnNotReady ∈ (start_server env p l s).2.2)
    ∧ (∀ i, 1 ≤ i → i ≤ 30 → check_server_ready env (http_port p) i = true →
        Event.warnNotReady ∉ (start_server env p l s).2.2) := by
  rw [start_server_spawn_shape env p l s hrun py hpy pid hsp]
  refine ⟨rfl, ?_, ?_⟩
  · intro hfail
    have hmem : Event.warnNotReady ∈ (readinessLoop env (http_port p) 1 30).2 :=
      (warn_mem_readinessLoop env (http_port p) 30 1).2 (fun i _ _ => hfail i)
    simp [hmem]
  · intro i h1 h2 hok hmem
    have hmem2 : Event.warnNotReady ∈ (readinessLoop env (http_port p) 1 30).2 := by
      simpa using hmem
    have hall := (warn_mem_readinessLoop env (http_port p) 30 1).1 hmem2
    have hfalse := hall i h1 (by omega)
    rw [hok] at hfalse
    cases hfalse

/-- C3 witness: with a never-connecting readiness probe, a concrete start
still succeeds and the trace carries the warning event. -/
theorem start_success_despite_readiness_instance :
    (start_server envNoReady 8765 "en" s0).1 = Except.ok ()
    ∧ Event.warnNotReady ∈ (start_server envNoReady 8765 "en" s0).2.2 := by
  have h := start_success_despite_readiness envNoReady 8765 "en" s0 rfl
    "python3" (by decide) 42 rfl
  exact ⟨h.1, h.2.1 (fun i => rfl)⟩

/-- C6: the code's interpreter resolution equals the spec's fixed priority
order (the four well-known candidates by version probe, then the
virtual-environment-derived path when set and existing), and, past the
liveness check, `start_server` fails with InterpreterNotFound exactly when
resolution yields nothing. -/
theorem find_python_resolution_order :
    (∀ env, find_python env = find_python_spec env)
    ∧ (∀ env p l s, (is_server_running env s).1 = false →
        ((start_server env p l s).1 = Except.error "Python not found" ↔
          find_python env = none)) := by
  constructor
  · intro env
    unfold find_python find_python_spec candidates
    cases h1 : env.versionOk "python3" <;>
      cases h2 : env.versionOk "python" <;>
        cases h3 : env.versionOk "/usr/bin/python3" <;>
          cases h4 : env.versionOk "/usr/local/bin/python3" <;>
            simp [List.find?, h1, h2, h3, h4]
  · intro env p l s hrun
    cases hpy : find_python env with
    | none => simp [start_server, hrun, hpy]
    | some py =>
      cases hsp : env.spawnResult py (serverArgs p l) with
      | error e =>
        simp [start_server, hrun, hpy, hsp]
        exact spawn_err_ne e _ (by decide)
      | ok pid =>
        simp [start_server, hrun, hpy, hsp]

/-- C6 witness: in the no-interpreter environment the two resolutions
agree and a concrete start fails with InterpreterNotFound. -/
theorem find_python_resolution_order_instance :
    find_python envNoPy = find_python_spec envNoPy
    ∧ (start_server envNoPy 8765 "en" s0).1 = Except.error "Python not found" :=
  ⟨find_python_resolution_order.1 envNoPy,
   (find_python_resolution_order.2 envNoPy 8765 "en" s0 rfl).2 (by decide)⟩

/-- C7 counterexample: in the event trace of a concrete successful start,
the handle-store event sits at index 2 and the first relay-listener start
at index 3 — the handle becomes visible in the slot BEFORE the relay
listeners are started, refuting the claimed ordering. -/
theorem handle_visible_before_relay :
    (start_server envRun 8765 "en" s0).2.2.get? 2 = some (Event.storeHandle 42)
    ∧ (start_server envRun 8765 "en" s0).2.2.get? 3 =
        some (Event.relayStarted StreamTag.stdout)
    ∧ (2 : Nat) < 3 :=
  ⟨rfl, rfl, by norm_num⟩

/-- C7 (amended): under spawn success the trace is exactly config write,
spawn, handle store, both relay-listener starts, then the readiness poll
events — the handle is visible in the slot after spawn but briefly BEFORE
the relay listeners start; the listeners start immediately afterwards,
before any readiness polling, and the stored handle's stream ends are
owned by them (taken). -/
theorem handle_store_relay_order (env : Env) (p : Nat) (l : String) (s : SupState)
    (hrun : (is_server_running env s).1 = false)
    (py : String) (hpy : find_python env = some py)
    (pid : Nat) (hsp : env.spawnResult py (serverArgs p l) = Except.ok pid) :
    (start_server env p l s).2.2 =
      Event.configWrite p l :: Event.spawned pid :: Event.storeHandle pid ::
        Event.relayStarted StreamTag.stdout :: Event.relayStarted StreamTag.stderr ::
        (readinessLoop env (http_port p) 1 30).2
    ∧ (start_server env p l s).2.1.process =
        some { pid := pid, stdoutOpen := false, stderrOpen := false } := by
  rw [start_server_spawn_shape env p l s hrun py hpy pid hsp]
  exact ⟨rfl, rfl⟩

/-- C7 amended-claim witness: the concrete trace of a successful start,
in full. -/
theorem handle_store_relay_order_instance :
    (start_server envRun 8765 "en" s0).2.2 =
      [Event.configWrite 8765 "en", Event.spawned 42, Event.storeHandle 42,
       Event.relayStarted StreamTag.stdout, Event.relayStarted StreamTag.stderr,
       Event.pollAttempt 1 true] := by
  have h := handle_store_relay_order envRun 8765 "en" s0 rfl "python3" (by decide) 42 rfl
  rw [h.1]
  rfl

end Streamware
